import Mathlib

/-
Verification of the GMAIL-CLONE-BACKEND server (src/server.js) against its
natural-language specification.  The JavaScript code is shallowly embedded:
the Mongo user collection becomes a list of records, bcrypt becomes an
abstract salted hash whose comparison succeeds exactly on the originating
password, jsonwebtoken becomes a signed record checked against a model MAC,
and the express routes become pure functions from request data and external
outcomes (disk writes, transport result) to responses and state.
-/

namespace GmailClone

/-- Model of a bcrypt hash value: bcrypt derives a one way salted hash from a
password, and comparison succeeds exactly when the hash was derived from the
compared password. -/
structure Hash where
  salt : Nat
  source : String
deriving DecidableEq

/-- Model of bcrypt.hash(password, cost): derive a salted hash. -/
def bcryptHash (password : String) (salt : Nat) : Hash :=
  ⟨salt, password⟩

/-- Model of bcrypt.compare(password, stored): true exactly when the stored
hash was derived from this password. -/
def bcryptCompare (password : String) (stored : Hash) : Bool :=
  stored.source == password

/-- A principal record of the User model (server.js lines 37-42): an email
and the stored password field, which holds the bcrypt hash. -/
structure User where
  email : String
  password : Hash
deriving DecidableEq

/-- The payload signed into a token by the login route: the object with the
single email field. -/
structure Claims where
  email : String
deriving DecidableEq

/-- Model of the signature jsonwebtoken computes over the payload and the
expiry with the symmetric secret key. -/
def macOf (c : Claims) (exp : Nat) (secret : String) : String :=
  secret ++ "#" ++ c.email ++ "#" ++ Nat.repr exp

/-- A decoded token: payload, expiry instant, signature. -/
structure Jwt where
  claims : Claims
  exp : Nat
  sig : String
deriving DecidableEq

/-- Model of jwt.sign(payload, jwtSecret, expiresIn): the expiry is the
issuance instant plus the window, and the signature covers payload and
expiry with the secret. -/
def jwtSign (c : Claims) (secret : String) (now window : Nat) : Jwt :=
  ⟨c, now + window, macOf c (now + window) secret⟩

/-- The distinct failure causes jsonwebtoken reports through the err
argument of the verify callback. -/
inductive JwtError where
  | malformed
  | invalidSignature
  | tokenExpired
deriving DecidableEq

/-- Model of jwt.verify on a decoded token: the signature is checked against
the secret, then the expiry against the current time. -/
def jwtVerify (t : Jwt) (secret : String) (now : Nat) : Except JwtError Claims :=
  if t.sig ≠ macOf t.claims t.exp secret then .error .invalidSignature
  else if t.exp ≤ now then .error .tokenExpired
  else .ok t.claims

/-- Model of jwt.verify applied to the raw token string: a string that does
not decode to a token at all is malformed.  The decoder parameter stands for
the token wire format. -/
def verifyTokenString (decode : String → Option Jwt) (s : String)
    (secret : String) (now : Nat) : Except JwtError Claims :=
  match decode s with
  | none => .error .malformed
  | some t => jwtVerify t secret now

/-- Embedding of the JavaScript split method on a single space separator,
over the character list of a string: empty pieces are kept, and the empty
string splits to one empty piece, as in JavaScript. -/
def splitCharsOnSpace : List Char → List (List Char)
  | [] => [[]]
  | c :: rest =>
    let r := splitCharsOnSpace rest
    if c = ' ' then [] :: r
    else
      match r with
      | [] => [[c]]
      | g :: gs => (c :: g) :: gs

/-- JavaScript header.split(" ") as a function on strings. -/
def jsSplitSpace (s : String) : List String :=
  (splitCharsOnSpace s.data).map (fun l => ⟨l⟩)

/-- The token extraction of the gate (line 120): take the part at index 1 of
the authorization header split on spaces; absent header or absent part give
none, as the JavaScript optional chain gives undefined. -/
def extractToken (authorization : Option String) : Option String :=
  match authorization with
  | none => none
  | some h => (jsSplitSpace h)[1]?

/-- Observable outcome of the authenticateJWT middleware: 401, 403, or
control passed on with req.user set. -/
inductive GateResult where
  | unauthorized
  | forbidden
  | authenticated (user : Claims)
deriving DecidableEq

/-- The authenticateJWT middleware (server.js lines 119-128): extract the
token; a missing or empty token is falsy and gets 401; any verification
error gets 403; otherwise the claims are attached and control passes on. -/
def authenticateJWT (decode : String → Option Jwt) (secret : String)
    (now : Nat) (authorization : Option String) : GateResult :=
  match extractToken authorization with
  | none => .unauthorized
  | some s =>
    if s = "" then .unauthorized
    else
      match verifyTokenString decode s secret now with
      | .error _ => .forbidden
      | .ok user => .authenticated user

/-- An HTTP response as the routes produce it: status and message body. -/
structure Response where
  status : Nat
  message : String
deriving DecidableEq

/-- The registration route (server.js lines 79-94): if a user with the email
exists respond 400, otherwise hash the password, append the new user and
respond 201.  Returns the response and the resulting store. -/
def register (users : List User) (email password : String) (salt : Nat) :
    Response × List User :=
  match users.find? (fun u => u.email == email) with
  | some _ => (⟨400, "Email already exists"⟩, users)
  | none =>
      (⟨201, "User registered successfully"⟩,
        users ++ [⟨email, bcryptHash password salt⟩])

/-- The login route (server.js lines 97-116): look the user up; respond 400
with the uniform message when absent or when the bcrypt comparison fails;
otherwise sign the email claim with a 3600 second window and return the
token together with the email. -/
def login (encode : Jwt → String) (secret : String) (now : Nat)
    (users : List User) (email password : String) :
    Except Response (String × String) :=
  match users.find? (fun u => u.email == email) with
  | none => .error ⟨400, "Invalid email or password"⟩
  | some u =>
    if bcryptCompare password u.password then
      .ok (encode (jwtSign ⟨email⟩ secret now 3600), email)
    else .error ⟨400, "Invalid email or password"⟩

/-- The recipient lookup of the dispatch route (line 139): the User.find
call with the membership filter returns the stored documents whose email is
among the requested ones, in collection order. -/
def findInEmails (users : List User) (toIds : List String) : List User :=
  users.filter (fun u => decide (u.email ∈ toIds))

/-- Line 140: map the found documents to their email field. -/
def resolveRecipients (users : List User) (toIds : List String) : List String :=
  (findInEmails users toIds).map (fun u => u.email)

/-- Modelled from the claim wording, for comparison with the code: the
requested identifiers that exist in the store, deduplicated keeping first
occurrences, in the order of the input sequence. -/
def resolveSpecOrder (users : List User) (toIds : List String) : List String :=
  (toIds.filter (fun e => users.any (fun u => u.email == e))).eraseDups

/-- Decimal digit rendering of a natural number, exactly as JavaScript
renders the Date.now() value inside the template string of the filename
callback.  Written with structural fuel so the kernel can evaluate it. -/
def natDigitsCore : Nat → Nat → List Char → List Char
  | 0, _, acc => acc
  | fuel + 1, n, acc =>
    if n < 10 then Nat.digitChar n :: acc
    else natDigitsCore fuel (n / 10) (Nat.digitChar (n % 10) :: acc)

/-- The decimal digit characters of a natural number, most significant
first. -/
def natDigits (n : Nat) : List Char :=
  natDigitsCore (n + 1) n []

/-- The filename callback of multer.diskStorage (server.js line 72): the
current millisecond timestamp, a dash, and the original filename. -/
def storageName (now : Nat) (originalname : String) : String :=
  ⟨natDigits now⟩ ++ "-" ++ originalname

/-- A file arriving with the dispatch request: its original filename, its
bytes, and the outcome of the underlying disk write, which is a fact of the
external blob store. -/
structure UploadFile where
  originalname : String
  content : List Nat
  writeOk : Bool
deriving DecidableEq

/-- Durable attachment storage: the written (stored name, bytes) pairs in
write order. -/
abbrev DiskState := List (String × List Nat)

/-- The upload.array middleware processing (lines 67-76, 131): the files are
written one by one under their synthesized names; the first failing write
aborts the request before the route handler runs.  Returns the disk state
and, when every write succeeded, the (originalname, storage path) pairs the
handler sees as req.files. -/
def processUploads (now : Nat) (disk : DiskState) :
    List UploadFile → DiskState × Option (List (String × String))
  | [] => (disk, some [])
  | f :: rest =>
    if f.writeOk then
      let nm := storageName now f.originalname
      let r := processUploads now (disk ++ [(nm, f.content)]) rest
      (r.1, r.2.map (fun l => (f.originalname, nm) :: l))
    else (disk, none)

/-- The mailOptions object handed to transporter.sendMail (lines 143-152):
sender, comma joined recipients, subject, text, and the attachment
(filename, path) pairs. -/
structure MailOptions where
  sender : String
  toLine : String
  subject : String
  text : String
  attachments : List (String × String)
deriving DecidableEq

/-- The data of a POST /api/send-email request: the authorization header,
the claimed sender from the body, the requested recipients, subject, body
text, and the uploaded files. -/
structure SendEmailRequest where
  authorization : Option String
  bodyEmail : String
  toIds : List String
  subject : String
  body : String
  files : List UploadFile
deriving DecidableEq

/-- Observable outcome of the dispatch route: the multer abort before the
handler, the 500 send failure from the transporter callback, or the 200
success. -/
inductive SendResult where
  | storageError
  | sendFailure
  | sent
deriving DecidableEq

/-- The POST /api/send-email route (server.js lines 131-165).  Its
middleware chain is upload.array followed by the handler; authenticateJWT is
not part of the chain, so the authorization field of the request is never
consulted.  The transportOk argument models the outcome of the external
transporter.sendMail call.  Returns the response, the final disk state, and
the mail handed to the Transport, none when the Transport was never
called. -/
def sendEmailRoute (users : List User) (now : Nat) (disk : DiskState)
    (transportOk : Bool) (req : SendEmailRequest) :
    SendResult × DiskState × Option MailOptions :=
  match processUploads now disk req.files with
  | (disk1, none) => (.storageError, disk1, none)
  | (disk1, some saved) =>
    let recipientEmails := resolveRecipients users req.toIds
    let mail : MailOptions :=
      ⟨req.bodyEmail, String.intercalate "," recipientEmails, req.subject,
        req.body, saved⟩
    if transportOk then (.sent, disk1, some mail)
    else (.sendFailure, disk1, some mail)

/-- A concrete secret for the concrete instances below. -/
def demoSecret : String := "topsecret"

/-- A token whose signature is valid for demoSecret but whose expiry
instant 100 is in the past at time 200. -/
def demoExpired : Jwt :=
  ⟨⟨"alice@example.com"⟩, 100, macOf ⟨"alice@example.com"⟩ 100 demoSecret⟩

/-- A token that is not yet expired at time 200 but whose signature does not
verify against demoSecret. -/
def demoBadSig : Jwt :=
  ⟨⟨"alice@example.com"⟩, 900, "forged"⟩

/-- A concrete decoder mapping two wire strings to the two demo tokens. -/
def demoDecode : String → Option Jwt := fun s =>
  if s = "exp.tok" then some demoExpired
  else if s = "bad.tok" then some demoBadSig
  else none

/-- A concrete encoder for the round trip instance: every token is sent on
the wire as the fixed string demo.tok. -/
def demoEncode : Jwt → String := fun _ => "demo.tok"

/-- A concrete decoder inverting demoEncode on the token that the login
instance below issues. -/
def demoRoundDecode : String → Option Jwt := fun s =>
  if s = "demo.tok" then
    some (jwtSign ⟨"alice@example.com"⟩ demoSecret 50 3600)
  else none

/-- A one-user concrete store. -/
def demoUsers : List User :=
  [⟨"alice@example.com", bcryptHash "pw123" 7⟩]

end GmailClone

namespace GmailClone

/-- C4: registering an identifier that is already present fails with the
duplicate email response and leaves the store unchanged, still holding
exactly one principal with that identifier. -/
theorem register_duplicate_unchanged (users : List User)
    (email password : String) (salt : Nat)
    (hone : users.countP (fun u => u.email == email) = 1) :
    register users email password salt = (⟨400, "Email already exists"⟩, users) ∧
    ((register users email password salt).2.countP
      (fun u => u.email == email)) = 1 := by
  have hpos : 0 < users.countP (fun u => u.email == email) := by omega
  obtain ⟨u, hu, hup⟩ := List.countP_pos_iff.mp hpos
  have hfind : users.find? (fun u => u.email == email) ≠ none := by
    intro hnone
    exact absurd hup ((List.find?_eq_none.mp hnone) u hu)
  cases hf : users.find? (fun u => u.email == email) with
  | none => exact absurd hf hfind
  | some v =>
    refine ⟨?_, ?_⟩ <;> simp [register, hf, hone]

/-- Witness for C4 at a concrete one-element store. -/
theorem register_duplicate_unchanged_witness :
    ([⟨"alice@example.com", bcryptHash "pw123" 7⟩] : List User).countP
      (fun u => u.email == "alice@example.com") = 1 ∧
    (register [⟨"alice@example.com", bcryptHash "pw123" 7⟩]
        "alice@example.com" "other" 9 =
      (⟨400, "Email already exists"⟩,
        [⟨"alice@example.com", bcryptHash "pw123" 7⟩]) ∧
    ((register [⟨"alice@example.com", bcryptHash "pw123" 7⟩]
        "alice@example.com" "other" 9).2.countP
      (fun u => u.email == "alice@example.com")) = 1) :=
  ⟨by decide,
    register_duplicate_unchanged [⟨"alice@example.com", bcryptHash "pw123" 7⟩]
      "alice@example.com" "other" 9 (by decide)⟩

/-- C5: login with a registered identifier but a wrong secret and login with
an unregistered identifier fail with the identical observable response, the
same status and the same message. -/
theorem login_failure_uniform (encode : Jwt → String) (secret : String)
    (now : Nat) (users : List User)
    (goodId wrongPw unknownId anyPw : String) (u : User)
    (hfind : users.find? (fun v => v.email == goodId) = some u)
    (hwrong : bcryptCompare wrongPw u.password = false)
    (hunknown : users.find? (fun v => v.email == unknownId) = none) :
    login encode secret now users goodId wrongPw =
      .error ⟨400, "Invalid email or password"⟩ ∧
    login encode secret now users unknownId anyPw =
      .error ⟨400, "Invalid email or password"⟩ := by
  constructor
  · simp [login, hfind, hwrong]
  · simp [login, hunknown]

/-- Witness for C5 at a concrete store, wrong password and unknown email. -/
theorem login_failure_uniform_witness :
    (([⟨"alice@example.com", bcryptHash "pw123" 7⟩] : List User).find?
        (fun v => v.email == "alice@example.com") =
      some ⟨"alice@example.com", bcryptHash "pw123" 7⟩ ∧
     bcryptCompare "wrong" (bcryptHash "pw123" 7 : Hash) = false ∧
     ([⟨"alice@example.com", bcryptHash "pw123" 7⟩] : List User).find?
        (fun v => v.email == "ghost@example.com") = none) ∧
    (login (fun _ => "tok") "topsecret" 50
        [⟨"alice@example.com", bcryptHash "pw123" 7⟩]
        "alice@example.com" "wrong" =
      .error ⟨400, "Invalid email or password"⟩ ∧
     login (fun _ => "tok") "topsecret" 50
        [⟨"alice@example.com", bcryptHash "pw123" 7⟩]
        "ghost@example.com" "whatever" =
      .error ⟨400, "Invalid email or password"⟩) :=
  ⟨⟨by decide, by decide, by decide⟩,
    login_failure_uniform (fun _ => "tok") "topsecret" 50
      [⟨"alice@example.com", bcryptHash "pw123" 7⟩]
      "alice@example.com" "wrong" "ghost@example.com" "whatever"
      ⟨"alice@example.com", bcryptHash "pw123" 7⟩
      (by decide) (by decide) (by decide)⟩

/-- C9: an authorization header that is present but has no second space
separated part makes the gate respond 401, the missing credential status,
never the 403 invalid credential status. -/
theorem malformed_header_unauthorized (decode : String → Option Jwt)
    (secret : String) (now : Nat) (h : String)
    (hparts : (jsSplitSpace h).length ≤ 1) :
    authenticateJWT decode secret now (some h) = .unauthorized := by
  have hnone : (jsSplitSpace h)[1]? = none := by
    rw [List.getElem?_eq_none_iff]
    omega
  simp [authenticateJWT, extractToken, hnone]

/-- Witness for C9 at the bare header Bearer with no token part. -/
theorem malformed_header_unauthorized_witness :
    (jsSplitSpace "Bearer").length ≤ 1 ∧
    authenticateJWT (fun _ => none) "topsecret" 50 (some "Bearer") =
      .unauthorized :=
  ⟨by decide,
    malformed_header_unauthorized (fun _ => none) "topsecret" 50 "Bearer"
      (by decide)⟩

end GmailClone

namespace GmailClone

/-- C2: for a registered pair, login succeeds and returns a token that
verification accepts before expiry, resolving to exactly that identifier. -/
theorem login_token_roundtrip
    (encode : Jwt → String) (decode : String → Option Jwt) (secret : String)
    (users : List User) (id sec : String) (u : User) (salt now t : Nat)
    (hfind : users.find? (fun v => v.email == id) = some u)
    (hpw : u.password = bcryptHash sec salt)
    (hdec : decode (encode (jwtSign ⟨id⟩ secret now 3600)) =
      some (jwtSign ⟨id⟩ secret now 3600))
    (hfresh : t < now + 3600) :
    login encode secret now users id sec =
      .ok (encode (jwtSign ⟨id⟩ secret now 3600), id) ∧
    verifyTokenString decode (encode (jwtSign ⟨id⟩ secret now 3600)) secret t =
      .ok ⟨id⟩ := by
  constructor
  · simp [login, hfind, hpw, bcryptCompare, bcryptHash]
  · simp only [verifyTokenString]
    rw [hdec]
    simp only [jwtVerify, jwtSign]
    rw [if_neg (by simp)]
    rw [if_neg (by omega)]

/-- Witness for C2 at the concrete one-user store and concrete codec. -/
theorem login_token_roundtrip_witness :
    (demoUsers.find? (fun v => v.email == "alice@example.com") =
        some ⟨"alice@example.com", bcryptHash "pw123" 7⟩ ∧
      (⟨"alice@example.com", bcryptHash "pw123" 7⟩ : User).password =
        bcryptHash "pw123" 7 ∧
      demoRoundDecode
          (demoEncode (jwtSign ⟨"alice@example.com"⟩ demoSecret 50 3600)) =
        some (jwtSign ⟨"alice@example.com"⟩ demoSecret 50 3600) ∧
      100 < 50 + 3600) ∧
    (login demoEncode demoSecret 50 demoUsers "alice@example.com" "pw123" =
        .ok (demoEncode (jwtSign ⟨"alice@example.com"⟩ demoSecret 50 3600),
          "alice@example.com") ∧
      verifyTokenString demoRoundDecode
          (demoEncode (jwtSign ⟨"alice@example.com"⟩ demoSecret 50 3600))
          demoSecret 100 =
        .ok ⟨"alice@example.com"⟩) :=
  ⟨⟨by decide, by decide, by decide, by decide⟩,
    login_token_roundtrip demoEncode demoRoundDecode demoSecret demoUsers
      "alice@example.com" "pw123" ⟨"alice@example.com", bcryptHash "pw123" 7⟩
      7 50 100 (by decide) (by decide) (by decide) (by decide)⟩

/-- Counterexample to C3 as stated: with the store registered in the order
b@x then a@x and the request listing a@x first, the code returns the store
order b@x, a@x, not the first-seen input order a@x, b@x. -/
theorem resolve_order_counterexample :
    resolveRecipients
        [⟨"b@x", bcryptHash "p" 1⟩, ⟨"a@x", bcryptHash "q" 2⟩]
        ["a@x", "b@x"] = ["b@x", "a@x"] ∧
    resolveSpecOrder
        [⟨"b@x", bcryptHash "p" 1⟩, ⟨"a@x", bcryptHash "q" 2⟩]
        ["a@x", "b@x"] = ["a@x", "b@x"] ∧
    resolveRecipients
        [⟨"b@x", bcryptHash "p" 1⟩, ⟨"a@x", bcryptHash "q" 2⟩]
        ["a@x", "b@x"] ≠
      resolveSpecOrder
        [⟨"b@x", bcryptHash "p" 1⟩, ⟨"a@x", bcryptHash "q" 2⟩]
        ["a@x", "b@x"] := by
  decide

/-- C3 amended: resolution returns exactly the requested identifiers that
exist in the store, without duplicates given the store uniqueness invariant,
and unknown identifiers are dropped without error; the order is the order of
the credential store, not the first-seen order of the input. -/
theorem resolve_store_order (users : List User) (toIds : List String)
    (huniq : (users.map (fun u => u.email)).Nodup) :
    (∀ e, e ∈ resolveRecipients users toIds ↔
      e ∈ toIds ∧ ∃ u ∈ users, u.email = e) ∧
    (resolveRecipients users toIds).Nodup ∧
    List.Sublist (resolveRecipients users toIds) (users.map (fun u => u.email)) := by
  have hsub : List.Sublist (resolveRecipients users toIds)
      (users.map (fun u => u.email)) := by
    simp only [resolveRecipients, findInEmails]
    exact (List.filter_sublist users).map (fun u => u.email)
  refine ⟨?_, huniq.sublist hsub, hsub⟩
  intro e
  simp only [resolveRecipients, findInEmails, List.mem_map, List.mem_filter,
    decide_eq_true_eq]
  constructor
  · rintro ⟨u, ⟨hu, hto⟩, rfl⟩
    exact ⟨hto, u, hu, rfl⟩
  · rintro ⟨hto, u, hu, rfl⟩
    exact ⟨u, ⟨hu, hto⟩, rfl⟩

/-- Witness for C3 amended at a two-user store with one unknown recipient. -/
theorem resolve_store_order_witness :
    (([⟨"a@x", bcryptHash "p" 1⟩, ⟨"b@x", bcryptHash "q" 2⟩] : List User).map
        (fun u => u.email)).Nodup ∧
    ((∀ e, e ∈ resolveRecipients
          [⟨"a@x", bcryptHash "p" 1⟩, ⟨"b@x", bcryptHash "q" 2⟩]
          ["b@x", "ghost@x"] ↔
        e ∈ ["b@x", "ghost@x"] ∧
          ∃ u ∈ ([⟨"a@x", bcryptHash "p" 1⟩, ⟨"b@x", bcryptHash "q" 2⟩] :
            List User), u.email = e) ∧
      (resolveRecipients
          [⟨"a@x", bcryptHash "p" 1⟩, ⟨"b@x", bcryptHash "q" 2⟩]
          ["b@x", "ghost@x"]).Nodup ∧
      List.Sublist
        (resolveRecipients
          [⟨"a@x", bcryptHash "p" 1⟩, ⟨"b@x", bcryptHash "q" 2⟩]
          ["b@x", "ghost@x"])
        (([⟨"a@x", bcryptHash "p" 1⟩, ⟨"b@x", bcryptHash "q" 2⟩] :
          List User).map (fun u => u.email))) :=
  ⟨by decide,
    resolve_store_order
      [⟨"a@x", bcryptHash "p" 1⟩, ⟨"b@x", bcryptHash "q" 2⟩]
      ["b@x", "ghost@x"] (by decide)⟩

/-- Counterexample to C6 as stated: an expired token with a valid signature
and a fresh token with an invalid signature receive the identical 403
rejection from the gate, so the expiry rejection is not distinguishable. -/
theorem expired_rejection_same_as_invalid :
    demoExpired.sig = macOf demoExpired.claims demoExpired.exp demoSecret ∧
    demoExpired.exp ≤ 200 ∧
    demoBadSig.sig ≠ macOf demoBadSig.claims demoBadSig.exp demoSecret ∧
    200 < demoBadSig.exp ∧
    authenticateJWT demoDecode demoSecret 200 (some "Bearer exp.tok") =
      .forbidden ∧
    authenticateJWT demoDecode demoSecret 200 (some "Bearer bad.tok") =
      .forbidden := by
  decide

/-- C6 amended: a token presented after its expiry instant is rejected with
the 403 forbidden status even when its signature is valid; this is the same
rejection the gate gives malformed or signature-invalid tokens, so only the
missing-token 401 case is distinguishable. -/
theorem expired_token_forbidden (decode : String → Option Jwt)
    (secret : String) (now : Nat) (hdr tok : String) (t : Jwt)
    (hext : extractToken (some hdr) = some tok) (hne : tok ≠ "")
    (hdec : decode tok = some t)
    (hsig : t.sig = macOf t.claims t.exp secret)
    (hexp : t.exp ≤ now) :
    authenticateJWT decode secret now (some hdr) = .forbidden := by
  simp only [authenticateJWT, hext]
  rw [if_neg hne]
  simp only [verifyTokenString, hdec, jwtVerify, hsig]
  rw [if_neg (by simp)]
  rw [if_pos hexp]

/-- Witness for C6 amended at the concrete expired token. -/
theorem expired_token_forbidden_witness :
    (extractToken (some "Bearer exp.tok") = some "exp.tok" ∧
      ("exp.tok" : String) ≠ "" ∧
      demoDecode "exp.tok" = some demoExpired ∧
      demoExpired.sig = macOf demoExpired.claims demoExpired.exp demoSecret ∧
      demoExpired.exp ≤ 200) ∧
    authenticateJWT demoDecode demoSecret 200 (some "Bearer exp.tok") =
      .forbidden :=
  ⟨⟨by decide, by decide, by decide, by decide, by decide⟩,
    expired_token_forbidden demoDecode demoSecret 200 "Bearer exp.tok"
      "exp.tok" demoExpired (by decide) (by decide) (by decide) (by decide)
      (by decide)⟩

end GmailClone

namespace GmailClone

/-- The fuel based digit rendering agrees with the Mathlib decimal digits,
reversed to most significant first, for any sufficient fuel. -/
theorem natDigitsCore_eq (fuel : Nat) :
    ∀ (n : Nat) (acc : List Char), n < fuel →
    natDigitsCore fuel n acc =
      (if n = 0 then ['0']
        else ((Nat.digits 10 n).map Nat.digitChar).reverse) ++ acc := by
  induction fuel with
  | zero => intro n acc h; exact absurd h (Nat.not_lt_zero n)
  | succ fuel ih =>
    intro n acc h
    by_cases h10 : n < 10
    · simp only [natDigitsCore, if_pos h10]
      by_cases h0 : n = 0
      · subst h0; rfl
      · rw [if_neg h0]
        have hd : Nat.digits 10 n = [n] := by
          rw [Nat.digits_def' (by norm_num : (1 : ℕ) < 10)
            (Nat.pos_of_ne_zero h0)]
          simp [Nat.mod_eq_of_lt h10, Nat.div_eq_of_lt h10]
        rw [hd]
        rfl
    · have hpos : 0 < n := by omega
      simp only [natDigitsCore, if_neg h10]
      have hlt : n / 10 < fuel := by omega
      rw [ih (n / 10) _ hlt]
      rw [if_neg (show ¬ n / 10 = 0 by omega)]
      rw [if_neg (show ¬ n = 0 by omega)]
      rw [Nat.digits_def' (by norm_num : (1 : ℕ) < 10) hpos]
      simp [List.append_assoc]

/-- Closed form of the digit rendering. -/
theorem natDigits_eq (n : Nat) :
    natDigits n = if n = 0 then ['0']
      else ((Nat.digits 10 n).map Nat.digitChar).reverse := by
  rw [natDigits, natDigitsCore_eq (n + 1) n [] (Nat.lt_succ_self n),
    List.append_nil]

/-- No digit character is the dash. -/
theorem digitChar_ne_dash (d : Nat) : Nat.digitChar d ≠ '-' := by
  rcases Nat.lt_or_ge d 16 with h | h
  · exact (by decide : ∀ x < 16, Nat.digitChar x ≠ '-') d h
  · intro hc
    have hstar : Nat.digitChar d = '*' := by
      unfold Nat.digitChar
      repeat rw [if_neg (by omega)]
    rw [hstar] at hc
    exact absurd hc (by decide)

/-- The rendered timestamp contains no dash. -/
theorem natDigits_no_dash (n : Nat) : '-' ∉ natDigits n := by
  rw [natDigits_eq]
  split
  · decide
  · intro hmem
    rw [List.mem_reverse] at hmem
    obtain ⟨d, _, hd⟩ := List.mem_map.mp hmem
    exact digitChar_ne_dash d hd

/-- Digit characters of digits below ten determine the digit. -/
theorem digitChar_inj_lt (a b : Nat) (ha : a < 10) (hb : b < 10)
    (h : Nat.digitChar a = Nat.digitChar b) : a = b := by
  have hball : ∀ x < 10, ∀ y < 10,
      Nat.digitChar x = Nat.digitChar y → x = y := by decide
  exact hball a ha b hb h

/-- Mapping digitChar over lists of digits below ten is injective. -/
theorem mapDigitChar_inj : ∀ (l1 l2 : List Nat), (∀ d ∈ l1, d < 10) →
    (∀ d ∈ l2, d < 10) → l1.map Nat.digitChar = l2.map Nat.digitChar →
    l1 = l2 := by
  intro l1
  induction l1 with
  | nil =>
    intro l2 _ _ h
    cases l2 with
    | nil => rfl
    | cons b t => simp at h
  | cons a t ih =>
    intro l2 h1 h2 h
    cases l2 with
    | nil => simp at h
    | cons b t2 =>
      simp only [List.map_cons, List.cons.injEq] at h
      have hab : a = b :=
        digitChar_inj_lt a b (h1 a (by simp)) (h2 b (by simp)) h.1
      subst hab
      have ht := ih t2 (fun d hd => h1 d (by simp [hd]))
        (fun d hd => h2 d (by simp [hd])) h.2
      rw [ht]

/-- The decimal rendering is injective. -/
theorem natDigits_inj (m n : Nat) (h : natDigits m = natDigits n) : m = n := by
  rw [natDigits_eq, natDigits_eq] at h
  by_cases hm : m = 0 <;> by_cases hn : n = 0
  · omega
  · exfalso
    rw [if_pos hm, if_neg hn] at h
    have hmap : (Nat.digits 10 n).map Nat.digitChar = ['0'] := by
      have hr := congrArg List.reverse h
      simpa using hr.symm
    have hdig : Nat.digits 10 n = [0] := by
      apply mapDigitChar_inj
      · intro d hd; exact Nat.digits_lt_base (by norm_num) hd
      · intro d hd; simp at hd; omega
      · rw [hmap]; rfl
    have hn0 : n = 0 := by
      have h0 := Nat.ofDigits_digits 10 n
      rw [hdig] at h0
      simpa using h0.symm
    exact hn hn0
  · exfalso
    rw [if_neg hm, if_pos hn] at h
    have hmap : (Nat.digits 10 m).map Nat.digitChar = ['0'] := by
      have hr := congrArg List.reverse h
      simpa using hr
    have hdig : Nat.digits 10 m = [0] := by
      apply mapDigitChar_inj
      · intro d hd; exact Nat.digits_lt_base (by norm_num) hd
      · intro d hd; simp at hd; omega
      · rw [hmap]; rfl
    have hm0 : m = 0 := by
      have h0 := Nat.ofDigits_digits 10 m
      rw [hdig] at h0
      simpa using h0.symm
    exact hm hm0
  · rw [if_neg hm, if_neg hn] at h
    have hmap := List.reverse_injective h
    have heq := mapDigitChar_inj _ _
      (fun d hd => Nat.digits_lt_base (by norm_num) hd)
      (fun d hd => Nat.digits_lt_base (by norm_num) hd) hmap
    have h0 := Nat.ofDigits_digits 10 m
    rw [heq, Nat.ofDigits_digits] at h0
    exact h0.symm

/-- Splitting at the dash is unambiguous when neither left part holds a
dash. -/
theorem append_dash_inj : ∀ (l1 l2 a b : List Char), '-' ∉ l1 → '-' ∉ l2 →
    l1 ++ '-' :: a = l2 ++ '-' :: b → l1 = l2 ∧ a = b := by
  intro l1
  induction l1 with
  | nil =>
    intro l2 a b _ h2 h
    cases l2 with
    | nil =>
      simp only [List.nil_append, List.cons.injEq] at h
      exact ⟨rfl, h.2⟩
    | cons c t =>
      exfalso
      simp only [List.nil_append, List.cons_append, List.cons.injEq] at h
      apply h2
      rw [← h.1]
      exact List.mem_cons_self '-' t
  | cons c t ih =>
    intro l2 a b h1 h2 h
    cases l2 with
    | nil =>
      exfalso
      simp only [List.cons_append, List.nil_append, List.cons.injEq] at h
      apply h1
      rw [h.1]
      exact List.mem_cons_self '-' t
    | cons d t2 =>
      simp only [List.cons_append, List.cons.injEq] at h
      have hrec := ih t2 a b (fun hm => h1 (List.mem_cons_of_mem c hm))
        (fun hm => h2 (List.mem_cons_of_mem d hm)) h.2
      exact ⟨by rw [h.1, hrec.1], hrec.2⟩

/-- The character data of a synthesized storage name. -/
theorem storageName_data (t : Nat) (s : String) :
    (storageName t s).data = natDigits t ++ '-' :: s.data := by
  simp [storageName, String.data_append]

/-- C7 amended: two stored attachments receive distinct storage names
whenever their write timestamps differ or their original filenames differ;
only files with the same original filename written in the same millisecond
collide. -/
theorem storageName_distinct (t1 t2 : Nat) (n1 n2 : String)
    (h : t1 ≠ t2 ∨ n1 ≠ n2) :
    storageName t1 n1 ≠ storageName t2 n2 := by
  intro heq
  have hdata : natDigits t1 ++ '-' :: n1.data =
      natDigits t2 ++ '-' :: n2.data := by
    have hc := congrArg String.data heq
    rwa [storageName_data, storageName_data] at hc
  obtain ⟨hts, hns⟩ := append_dash_inj (natDigits t1) (natDigits t2)
    n1.data n2.data (natDigits_no_dash t1) (natDigits_no_dash t2) hdata
  rcases h with h | h
  · exact h (natDigits_inj t1 t2 hts)
  · exact h (String.ext hns)

/-- Witness for C7 amended at two distinct timestamps. -/
theorem storageName_distinct_witness :
    ((1700 : Nat) ≠ 1701 ∨ ("a.txt" : String) ≠ "a.txt") ∧
    storageName 1700 "a.txt" ≠ storageName 1701 "a.txt" :=
  ⟨Or.inl (by decide),
    storageName_distinct 1700 1701 "a.txt" "a.txt" (Or.inl (by decide))⟩

/-- Counterexample to C7 as stated: two distinct files, same original
filename and different bytes, received in the same millisecond, get the
identical storage name, so the second write lands on the name of the
first. -/
theorem storageName_collision :
    (⟨"a.txt", [0], true⟩ : UploadFile) ≠ (⟨"a.txt", [1], true⟩ : UploadFile) ∧
    storageName 1700 (⟨"a.txt", [0], true⟩ : UploadFile).originalname =
      storageName 1700 (⟨"a.txt", [1], true⟩ : UploadFile).originalname ∧
    (processUploads 1700 [] [⟨"a.txt", [0], true⟩, ⟨"a.txt", [1], true⟩]).1 =
      [(storageName 1700 "a.txt", [0]), (storageName 1700 "a.txt", [1])] := by
  decide

end GmailClone

namespace GmailClone

/-- A failing write anywhere in the file list makes the upload middleware
abort: no req.files reach the handler. -/
theorem processUploads_fail (now : Nat) :
    ∀ (files : List UploadFile) (disk : DiskState),
    (∃ f ∈ files, f.writeOk = false) →
    (processUploads now disk files).2 = none := by
  intro files
  induction files with
  | nil => intro disk h; simp at h
  | cons f rest ih =>
    intro disk h
    by_cases hw : f.writeOk = true
    · obtain ⟨g, hg, hgw⟩ := h
      have hrest : ∃ g ∈ rest, g.writeOk = false := by
        rcases List.mem_cons.mp hg with rfl | hmem
        · rw [hw] at hgw; cases hgw
        · exact ⟨g, hmem, hgw⟩
      simp [processUploads, hw, ih _ hrest]
    · simp [processUploads, hw]

/-- When every write succeeds, the middleware appends exactly the named
attachment blobs to the disk and passes the (filename, path) pairs on. -/
theorem processUploads_ok (now : Nat) :
    ∀ (files : List UploadFile) (disk : DiskState),
    (∀ f ∈ files, f.writeOk = true) →
    processUploads now disk files =
      (disk ++ files.map (fun f => (storageName now f.originalname, f.content)),
        some (files.map
          (fun f => (f.originalname, storageName now f.originalname)))) := by
  intro files
  induction files with
  | nil => intro disk _; simp [processUploads]
  | cons f rest ih =>
    intro disk hall
    have hw : f.writeOk = true := hall f (by simp)
    have hrest : ∀ g ∈ rest, g.writeOk = true :=
      fun g hg => hall g (by simp [hg])
    simp [processUploads, hw, ih _ hrest, List.append_assoc]

/-- C8: if any attachment write fails the whole dispatch aborts with the
storage failure outcome and the Transport is never called. -/
theorem storage_failure_aborts_dispatch (users : List User) (now : Nat)
    (disk : DiskState) (transportOk : Bool) (req : SendEmailRequest)
    (hfail : ∃ f ∈ req.files, f.writeOk = false) :
    (sendEmailRoute users now disk transportOk req).1 = .storageError ∧
    (sendEmailRoute users now disk transportOk req).2.2 = none := by
  have h2 := processUploads_fail now req.files disk hfail
  rcases hp : processUploads now disk req.files with ⟨d, r⟩
  rw [hp] at h2
  have hr : r = none := h2
  subst hr
  simp [sendEmailRoute, hp]

/-- Witness for C8: the second of two attachments fails to write. -/
theorem storage_failure_aborts_dispatch_witness :
    (∃ f ∈ [(⟨"a.txt", [7], true⟩ : UploadFile), ⟨"b.txt", [8], false⟩],
      f.writeOk = false) ∧
    ((sendEmailRoute demoUsers 1700 [] true
        ⟨none, "alice@example.com", ["alice@example.com"], "Hi", "Test",
          [⟨"a.txt", [7], true⟩, ⟨"b.txt", [8], false⟩]⟩).1 = .storageError ∧
      (sendEmailRoute demoUsers 1700 [] true
        ⟨none, "alice@example.com", ["alice@example.com"], "Hi", "Test",
          [⟨"a.txt", [7], true⟩, ⟨"b.txt", [8], false⟩]⟩).2.2 = none) :=
  ⟨by decide,
    storage_failure_aborts_dispatch demoUsers 1700 [] true
      ⟨none, "alice@example.com", ["alice@example.com"], "Hi", "Test",
        [⟨"a.txt", [7], true⟩, ⟨"b.txt", [8], false⟩]⟩ (by decide)⟩

/-- C10: when the Transport reports an error the response is the send
failure, yet the attachments written for the dispatch remain on disk,
exactly as after the writes, with no rollback; the disk state is the same
as on a successful transport, and the Transport was in fact called. -/
theorem transport_failure_keeps_attachments (users : List User) (now : Nat)
    (disk : DiskState) (req : SendEmailRequest)
    (hok : ∀ f ∈ req.files, f.writeOk = true) :
    sendEmailRoute users now disk false req =
      (.sendFailure,
        disk ++ req.files.map
          (fun f => (storageName now f.originalname, f.content)),
        some ⟨req.bodyEmail,
          String.intercalate "," (resolveRecipients users req.toIds),
          req.subject, req.body,
          req.files.map
            (fun f => (f.originalname, storageName now f.originalname))⟩) ∧
    (sendEmailRoute users now disk false req).2.1 =
      (sendEmailRoute users now disk true req).2.1 := by
  have h := processUploads_ok now req.files disk hok
  constructor
  · simp [sendEmailRoute, h]
  · simp [sendEmailRoute, h]

/-- Witness for C10 at a one-attachment dispatch with a failing
transport. -/
theorem transport_failure_keeps_attachments_witness :
    (∀ f ∈ [(⟨"a.txt", [7], true⟩ : UploadFile)], f.writeOk = true) ∧
    (sendEmailRoute demoUsers 1700 []
        false ⟨none, "alice@example.com", ["alice@example.com"], "Hi", "Test",
          [⟨"a.txt", [7], true⟩]⟩ =
      (.sendFailure,
        [] ++ [(⟨"a.txt", [7], true⟩ : UploadFile)].map
          (fun f => (storageName 1700 f.originalname, f.content)),
        some ⟨"alice@example.com",
          String.intercalate ","
            (resolveRecipients demoUsers ["alice@example.com"]),
          "Hi", "Test",
          [(⟨"a.txt", [7], true⟩ : UploadFile)].map
            (fun f => (f.originalname, storageName 1700 f.originalname))⟩) ∧
      (sendEmailRoute demoUsers 1700 []
          false ⟨none, "alice@example.com", ["alice@example.com"], "Hi",
            "Test", [⟨"a.txt", [7], true⟩]⟩).2.1 =
        (sendEmailRoute demoUsers 1700 []
          true ⟨none, "alice@example.com", ["alice@example.com"], "Hi",
            "Test", [⟨"a.txt", [7], true⟩]⟩).2.1) :=
  ⟨by decide,
    transport_failure_keeps_attachments demoUsers 1700 []
      ⟨none, "alice@example.com", ["alice@example.com"], "Hi", "Test",
        [⟨"a.txt", [7], true⟩]⟩ (by decide)⟩

/-- C1, evaluated at the failing input: the dispatch route performs no token
verification at all.  A request with no authorization header at all, one the
gate would reject with 401, still reaches the Transport, and the mail is
sent on behalf of whatever sender the request body claims. -/
theorem send_email_no_auth_gate :
    extractToken (none : Option String) = none ∧
    (∀ (decode : String → Option Jwt) (secret : String) (now : Nat),
      authenticateJWT decode secret now none = .unauthorized) ∧
    (∀ (auth : Option String) (users : List User) (now : Nat)
        (disk : DiskState) (transportOk : Bool) (bodyEmail : String)
        (toIds : List String) (subject body : String)
        (files : List UploadFile),
      sendEmailRoute users now disk transportOk
          ⟨auth, bodyEmail, toIds, subject, body, files⟩ =
        sendEmailRoute users now disk transportOk
          ⟨none, bodyEmail, toIds, subject, body, files⟩) ∧
    sendEmailRoute demoUsers 1700 [] true
        ⟨none, "mallory@evil.example", ["alice@example.com"], "Hi", "Test",
          []⟩ =
      (.sent, [],
        some ⟨"mallory@evil.example", "alice@example.com", "Hi", "Test", []⟩) := by
  refine ⟨rfl, ?_, ?_, ?_⟩
  · intro decode secret now
    rfl
  · intro auth users now disk transportOk bodyEmail toIds subject body files
    rfl
  · decide

end GmailClone
